import Mathlib

/-!
Shallow embedding of `src/Src/dist_matrix.c` (DWM3001CDK distributed
distance-matrix firmware).  Numeric types: C `uint8_t`/`uint16_t`/`uint32_t`
are modelled by `Nat` with explicit `% 2^w` where wraparound matters,
C `int32_t` by `Int` with an explicit two's-complement reinterpretation,
and C `float`/`double` by `ℚ` (exact arithmetic idealisation of IEEE-754).
-/

namespace DistMatrix

/-- Network configuration constant `NUM_DEVICES` (dist_matrix.c line 26). -/
def NUM_DEVICES : Nat := 2

/-- Network configuration constant `DEVICE_ID` (dist_matrix.c line 25). -/
def DEVICE_ID : Nat := 1

/-- `SET_INIT_DEV` = `(DEVICE_ID + 1) % NUM_DEVICES` (dist_matrix.c line 27). -/
def SET_INIT_DEV : Nat := (DEVICE_ID + 1) % NUM_DEVICES

/-- Message type `TYPE_ITITIATOR` (role hand-off), dist_matrix.c line 35. -/
def TYPE_ITITIATOR : Nat := 0

/-- Message type `TYPE_RANGING` (ranging poll), dist_matrix.c line 36. -/
def TYPE_RANGING : Nat := 1

/-- Message type `TYPE_RESPONSE` (ranging response), dist_matrix.c line 37. -/
def TYPE_RESPONSE : Nat := 2

/-- `ALL_MSG_SN_IDX`: byte offset of the sequence number (line 116). -/
def ALL_MSG_SN_IDX : Nat := 2

/-- `RESP_MSG_POLL_RX_TS_IDX` (line 117). -/
def RESP_MSG_POLL_RX_TS_IDX : Nat := 10

/-- `RESP_MSG_RESP_TX_TS_IDX` (line 118). -/
def RESP_MSG_RESP_TX_TS_IDX : Nat := 14

/-- `POLL_RX_TO_RESP_TX_DLY_UUS` (line 133). -/
def POLL_RX_TO_RESP_TX_DLY_UUS : Nat := 650

/-- `TX_ANT_DLY` (line 109). -/
def TX_ANT_DLY : Nat := 16385

/-- Modelled from the spec: `UUS_TO_DWT_TIME` is a conversion constant of the
external DW3000 driver headers (UWB microseconds to device time units), not
under `src/`; its exact value affects no claim. -/
def UUS_TO_DWT_TIME : Nat := 63898

/-- Modelled from the spec: `DWT_TIME_UNITS` ("time_unit_seconds") is a
constant of the external DW3000 driver headers (one device time unit in
seconds, 1/(128 · 499.2 MHz)), not under `src/`. -/
def DWT_TIME_UNITS : ℚ := 1 / 63897600000

/-- Modelled from the spec: `SPEED_OF_LIGHT` (metres per second) is a constant
of the external DW3000 driver headers, not under `src/`. -/
def SPEED_OF_LIGHT : ℚ := 299702547

/-- The static template `poll_msg` array (dist_matrix.c line 42). -/
def poll_msg : List Nat := [0x41, 0x88, 0, 0xCA, 0xDE, 0, 0, 0, 0, 0xE0, 0, 0]

/-- The static template `resp_msg` array (dist_matrix.c line 43). -/
def resp_msg : List Nat :=
  [0x41, 0x88, 0, 0xCA, 0xDE, 0, 0, 0, 0, 0xE1, 0, 0, 0, 0, 0, 0, 0, 0, 0, 0]

/-- `struct message_header` (lines 54-58): all fields are `uint8_t`. -/
structure MessageHeader where
  type : Nat
  src : Nat
  dest : Nat

/-- An N×N matrix of doubles, as used for `connectivity_matrix`. -/
abbrev Mat := Fin NUM_DEVICES → Fin NUM_DEVICES → ℚ

/-- `struct message_payload` (lines 69-74): a flat structure carrying all
possible payload variants at once (12-byte poll region, 20-byte response
region, the N×N matrix of doubles, 4 padding bytes). -/
structure MessagePayload where
  poll_msg : List Nat
  resp_msg : List Nat
  connectivity_matrix : Mat
  padding : List Nat

/-- `struct message` (lines 81-84). -/
structure Message where
  header : MessageHeader
  payload : MessagePayload

/-- `sizeof(message_header)`: three `uint8_t` fields, no padding. -/
def sizeofMessageHeader : Nat := 3

/-- `sizeof(message)` under the ARM AAPCS layout the firmware is built for:
header 3 bytes padded to 8 (payload holds doubles, so it is 8-aligned),
payload 12 + 20 + 4·8 + 4 = 68 bytes padded to 72, total 80. -/
def sizeofMessage : Nat := 80

/-- The reception length guard `frame_len <= sizeof(message)` used by both
roles (dist_matrix.c lines 241 and 358): a received buffer is interpreted
exactly when its length is at most `sizeof(message)`. -/
def acceptFrame (len : Nat) : Bool := decide (len ≤ sizeofMessage)

/-- The process-wide mutable state of one node: the static
`connectivity_list`, `connectivity_matrix` (lines 30-31) and the
`frame_seq_nb` counter (line 122, a `uint8_t`). -/
structure NodeState where
  connectivity_list : Fin NUM_DEVICES → ℚ
  connectivity_matrix : Mat
  frame_seq_nb : Nat

/-- The statics are zero-initialised at startup (C objects of static storage
duration). -/
def startupState : NodeState :=
  { connectivity_list := fun _ => 0
    connectivity_matrix := fun _ _ => 0
    frame_seq_nb := 0 }

/-- This node's id as an index into the vector/matrix. -/
def selfIdx : Fin NUM_DEVICES := ⟨DEVICE_ID, by decide⟩

/-- `update_matrix` (lines 164-166): `memcpy` of the whole
`connectivity_list` into row `DEVICE_ID` of `connectivity_matrix`. -/
def updateMatrixOp (s : NodeState) : NodeState :=
  { s with connectivity_matrix := fun i =>
      if (i : Nat) = DEVICE_ID then s.connectivity_list else s.connectivity_matrix i }

/-- The responder's hand-off merge (lines 403-409): cell-by-cell `memcpy` of
the received matrix over the whole local matrix, i.e. wholesale replacement. -/
def mergeMatrixOp (m : Mat) (s : NodeState) : NodeState :=
  { s with connectivity_matrix := m }

/-- Reinterpret the low 32 bits of an integer as a two's-complement
`int32_t`, as the C assignments `int32_t rtd_init = resp_rx_ts - poll_tx_ts`
do (lines 250, 265-266). -/
def toInt32 (x : Int) : Int :=
  if x % 4294967296 < 2147483648 then x % 4294967296 else x % 4294967296 - 4294967296

/-- `rtd_init = resp_rx_ts - poll_tx_ts` (line 265): `uint32_t` subtraction
(wrapping mod 2^32) stored into an `int32_t`. -/
def rtdInit (resp_rx_ts poll_tx_ts : Nat) : Int :=
  toInt32 ((resp_rx_ts : Int) - (poll_tx_ts : Int))

/-- `rtd_resp = resp_tx_ts - poll_rx_ts` (line 266). -/
def rtdResp (resp_tx_ts poll_rx_ts : Nat) : Int :=
  toInt32 ((resp_tx_ts : Int) - (poll_rx_ts : Int))

/-- `clockOffsetRatio = ((float)dwt_readclockoffset()) / (1 << 26)`
(line 258), with the raw register reading as an integer. -/
def clockOffsetRatioOf (reading : Int) : ℚ := (reading : ℚ) / 67108864

/-- `tof = ((rtd_init - rtd_resp * (1 - clockOffsetRatio)) / 2.0) *
DWT_TIME_UNITS` (line 268). -/
def tofOf (poll_tx_ts resp_rx_ts poll_rx_ts resp_tx_ts : Nat) (co : ℚ) : ℚ :=
  (((rtdInit resp_rx_ts poll_tx_ts : ℚ) -
      (rtdResp resp_tx_ts poll_rx_ts : ℚ) * (1 - co)) / 2) * DWT_TIME_UNITS

/-- `distance = tof * SPEED_OF_LIGHT` (line 269). -/
def distanceOf (poll_tx_ts resp_rx_ts poll_rx_ts resp_tx_ts : Nat) (co : ℚ) : ℚ :=
  tofOf poll_tx_ts resp_rx_ts poll_rx_ts resp_tx_ts co * SPEED_OF_LIGHT

/-- Modelled from the spec: `resp_msg_get_ts` is a helper of the SDK's
`shared_functions.c`, not under `src/`; per the spec's wire layout it reads a
4-byte little-endian timestamp field at a fixed byte offset. -/
def resp_msg_get_ts (bytes : List Nat) (idx : Nat) : Nat :=
  bytes.getD idx 0 + bytes.getD (idx + 1) 0 * 256 +
    bytes.getD (idx + 2) 0 * 65536 + bytes.getD (idx + 3) 0 * 16777216

/-- Modelled from the spec: `resp_msg_set_ts` is a helper of the SDK's
`shared_functions.c`, not under `src/`; per the spec's wire layout it writes a
4-byte little-endian timestamp field at a fixed byte offset. -/
def resp_msg_set_ts (bytes : List Nat) (idx : Nat) (ts : Nat) : List Nat :=
  ((((bytes.set idx (ts % 256)).set (idx + 1) (ts / 256 % 256)).set
      (idx + 2) (ts / 65536 % 256)).set (idx + 3) (ts / 16777216 % 256))

/-- The poll frame as the initiator transmits it on one iteration
(lines 195-221): header {TYPE_RANGING, DEVICE_ID, cur_device}; the payload is
the function-local `message_payload payload` — an UNINITIALISED stack object
`g` — with only the sequence byte at `ALL_MSG_SN_IDX` written. -/
def pollTxFrame (g : MessagePayload) (dest seq : Nat) : Message :=
  { header := { type := TYPE_RANGING, src := DEVICE_ID, dest := dest }
    payload := { g with poll_msg := g.poll_msg.set ALL_MSG_SN_IDX (seq % 256) } }

/-- The response frame as the responder transmits it (lines 325-386): header
{TYPE_RESPONSE, DEVICE_ID, poll source}; the payload is the function-local
uninitialised `message tx` payload `g` with the two timestamps written at
offsets 10 and 14 and the sequence byte at offset 2. -/
def respTxFrame (g : MessagePayload) (dest seq poll_rx_ts resp_tx_ts : Nat) : Message :=
  { header := { type := TYPE_RESPONSE, src := DEVICE_ID, dest := dest }
    payload := { g with resp_msg :=
      ((resp_msg_set_ts (resp_msg_set_ts g.resp_msg RESP_MSG_POLL_RX_TS_IDX poll_rx_ts)
          RESP_MSG_RESP_TX_TS_IDX resp_tx_ts).set ALL_MSG_SN_IDX (seq % 256)) } }

/-- An all-zero payload: one possible content of the uninitialised stack
payload (and a convenient concrete test value). -/
def zeroPayload : MessagePayload :=
  { poll_msg := List.replicate 12 0
    resp_msg := List.replicate 20 0
    connectivity_matrix := fun _ _ => 0
    padding := List.replicate 4 0 }

/-- A concrete all-zero message. -/
def zeroMessage : Message :=
  { header := { type := 0, src := 0, dest := 0 }, payload := zeroPayload }

/-- Outcome of one initiator poll/receive exchange, as observed through
`waitforsysstatus` (line 228): either an RX timeout/error, or a good frame
together with the environment readings the success path consumes (frame
length, received message, the two local timestamps, the raw clock-offset
register reading). -/
inductive RxOutcome where
  | fail
  | good (frame_len : Nat) (resp : Message) (poll_tx_ts resp_rx_ts : Nat)
      (coReading : Int)

/-- `frame_seq_nb++` on the `uint8_t` counter (lines 231 and 400):
increment wrapping modulo 256. -/
def bumpSeq (s : NodeState) : NodeState :=
  { s with frame_seq_nb := (s.frame_seq_nb + 1) % 256 }

/-- `connectivity_list[cur_device] = distance` (line 274). -/
def recordDistance (s : NodeState) (cur : Nat) (d : ℚ) : NodeState :=
  { s with connectivity_list := fun j =>
      if (j : Nat) = cur then d else s.connectivity_list j }

/-- One iteration of the initiator's per-peer loop body for a non-self peer
`cur` (lines 214-289): transmit the poll, wait, increment `frame_seq_nb`
(line 231, in every path), then on a good frame of acceptable length that is
a `TYPE_RESPONSE` addressed to us, compute the distance, record it at
`connectivity_list[cur]` and advance `cur`; in every other case leave the
state (and `cur`!) unchanged.  Returns (new state, new `cur_device`). -/
def initExchange (s : NodeState) (cur : Nat) (o : RxOutcome) : NodeState × Nat :=
  match o with
  | RxOutcome.fail => (bumpSeq s, cur)
  | RxOutcome.good frame_len resp poll_tx_ts resp_rx_ts coReading =>
    if acceptFrame frame_len then
      if resp.header.dest = DEVICE_ID ∧ resp.header.type = TYPE_RESPONSE then
        (recordDistance (bumpSeq s) cur
          (distanceOf poll_tx_ts resp_rx_ts
            (resp_msg_get_ts resp.payload.resp_msg RESP_MSG_POLL_RX_TS_IDX)
            (resp_msg_get_ts resp.payload.resp_msg RESP_MSG_RESP_TX_TS_IDX)
            (clockOffsetRatioOf coReading)), cur + 1)
      else (bumpSeq s, cur)
    else (bumpSeq s, cur)

/-- The `if (cur_device == DEVICE_ID) { cur_device++; continue; }` self-skip
at the top of the loop body (lines 209-212). -/
def advanceSkip (cur : Nat) : Nat := if cur = DEVICE_ID then cur + 1 else cur

/-- The initiator's sweep loop `while (cur_device < NUM_DEVICES)`
(lines 205-290), driven by a finite list of exchange outcomes; if the
outcomes are exhausted before the loop exits, the partial run stops there
(the C loop would keep retrying). -/
def sweep (s : NodeState) (cur : Nat) (os : List RxOutcome) : NodeState × Nat :=
  let c := advanceSkip cur
  if c < NUM_DEVICES then
    match os with
    | [] => (s, c)
    | o :: rest =>
      let p := initExchange s c o
      sweep p.1 p.2 rest
  else (s, c)

/-- The initiator's post-sweep phase (lines 292-314): `update_matrix()`, then
build the hand-off frame from the persistent `tx` message by setting
`dest = SET_INIT_DEV`, `type = TYPE_ITITIATOR` and copying the (just
committed) `connectivity_matrix` into the payload, then transmit it.
`frame_seq_nb` is not touched here. -/
def initiatorFinish (tx : Message) (s : NodeState) : NodeState × Message :=
  let s2 := updateMatrixOp s
  (s2,
    { header := { type := TYPE_ITITIATOR, src := tx.header.src, dest := SET_INIT_DEV }
      payload := { tx.payload with connectivity_matrix := s2.connectivity_matrix } })

/-- The role a node is executing. -/
inductive Role where
  | initiator
  | responder

/-- A full `initiator()` run (lines 174-315): the sweep from `cur_device = 0`,
then the commit-and-hand-off phase, then `return` — control goes back to the
responder loop (line 418) or falls into `responder()` (line 476). -/
def initiatorRun (tx : Message) (s : NodeState) (os : List RxOutcome) :
    NodeState × Message × Role :=
  let p := sweep s 0 os
  let q := initiatorFinish tx p.1
  (q.1, q.2, Role.responder)

/-- One reception event of the responder loop (lines 340-427): an RX
error, or a good frame with its length, contents, the local poll-receive
timestamp reading, and whether the delayed `dwt_starttx` succeeds. -/
inductive RespEvent where
  | rxFail
  | rxGood (frame_len : Nat) (resp : Message) (poll_rx_ts : Nat) (txOk : Bool)

/-- What the responder does with one event. -/
inductive RespAction where
  | reply (tx : Message)
  | becomeInitiator
  | discard
  | rearm

/-- The reply frame the responder builds for a poll from `src` (lines
365-387): `resp_tx_time = (uint32)((poll_rx_ts + 650 · UUS_TO_DWT_TIME) >> 8)`,
`resp_tx_ts = ((resp_tx_time & 0xFFFFFFFE) << 8) + TX_ANT_DLY` (the bit-clear
is `/ 2 * 2`, the shifts are `/ 256` and `· 256`), and the two timestamps and
the sequence byte written into the otherwise uninitialised payload `g`. -/
def respReplyFrame (g : MessagePayload) (s : NodeState) (src poll_rx_ts : Nat) : Message :=
  respTxFrame g src s.frame_seq_nb poll_rx_ts
    ((((poll_rx_ts + POLL_RX_TO_RESP_TX_DLY_UUS * UUS_TO_DWT_TIME) / 256) % 4294967296)
      / 2 * 2 * 256 + TX_ANT_DLY)

/-- One iteration of the responder's `while (1)` loop body (lines 340-427):
RX error → clear and re-arm; good frame of acceptable length addressed to us
of type `TYPE_RANGING` → build and send the timestamped response
(incrementing `frame_seq_nb` only if `dwt_starttx` succeeded, lines 388-401);
of type `TYPE_ITITIATOR` → merge the received matrix (then become initiator);
anything else → discard, state untouched. -/
def responderStep (g : MessagePayload) (s : NodeState) (e : RespEvent) :
    NodeState × RespAction :=
  match e with
  | RespEvent.rxFail => (s, RespAction.rearm)
  | RespEvent.rxGood frame_len resp poll_rx_ts txOk =>
    if acceptFrame frame_len then
      if resp.header.dest = DEVICE_ID ∧ resp.header.type = TYPE_RANGING then
        if txOk then
          (bumpSeq s, RespAction.reply (respReplyFrame g s resp.header.src poll_rx_ts))
        else (s, RespAction.reply (respReplyFrame g s resp.header.src poll_rx_ts))
      else
        if resp.header.dest = DEVICE_ID ∧ resp.header.type = TYPE_ITITIATOR then
          (mergeMatrixOp resp.payload.connectivity_matrix s, RespAction.becomeInitiator)
        else (s, RespAction.discard)
    else (s, RespAction.discard)

/-- The state-mutating operations the program can perform, in the order they
are reachable from `dist_matrix()`: an initiator sweep (always started at
`cur_device = 0`), the `update_matrix` commit, the hand-off merge, or one
responder-loop iteration. -/
inductive Op where
  | sweepRun (os : List RxOutcome)
  | commit
  | merge (m : Mat)
  | respond (g : MessagePayload) (e : RespEvent)

/-- Apply one operation to the node state. -/
def applyOp (op : Op) (s : NodeState) : NodeState :=
  match op with
  | Op.sweepRun os => (sweep s 0 os).1
  | Op.commit => updateMatrixOp s
  | Op.merge m => mergeMatrixOp m s
  | Op.respond g e => (responderStep g s e).1

/-- Run a sequence of operations from a state. -/
def runOps (ops : List Op) (s : NodeState) : NodeState :=
  ops.foldl (fun s op => applyOp op s) s

/-- A concrete received message: a `TYPE_RESPONSE` frame addressed to this
node. -/
def respSample : Message :=
  { header := { type := TYPE_RESPONSE, src := 0, dest := DEVICE_ID }
    payload := zeroPayload }

/-! ## Helper lemmas -/

theorem toInt32_spec (x : Int) :
    toInt32 x % 4294967296 = x % 4294967296 ∧
      -2147483648 ≤ toInt32 x ∧ toInt32 x < 2147483648 := by
  unfold toInt32
  split <;> refine ⟨?_, ?_, ?_⟩ <;> omega

theorem initExchange_matrix (s : NodeState) (cur : Nat) (o : RxOutcome) :
    ((initExchange s cur o).1).connectivity_matrix = s.connectivity_matrix := by
  cases o with
  | fail => rfl
  | good fl resp ptx rrx cor =>
    simp only [initExchange]
    split
    · split <;> rfl
    · rfl

theorem initExchange_seq (s : NodeState) (cur : Nat) (o : RxOutcome) :
    ((initExchange s cur o).1).frame_seq_nb = (s.frame_seq_nb + 1) % 256 := by
  cases o with
  | fail => rfl
  | good fl resp ptx rrx cor =>
    simp only [initExchange]
    split
    · split <;> rfl
    · rfl

theorem initExchange_list_self (s : NodeState) (cur : Nat) (o : RxOutcome)
    (h : cur ≠ DEVICE_ID) :
    ((initExchange s cur o).1).connectivity_list selfIdx =
      s.connectivity_list selfIdx := by
  have hv : ((selfIdx : Fin NUM_DEVICES) : Nat) ≠ cur := fun e => h (e ▸ rfl)
  cases o with
  | fail => rfl
  | good fl resp ptx rrx cor =>
    simp only [initExchange]
    split
    · split
      · simp only [recordDistance, bumpSeq]
        rw [if_neg hv]
      · rfl
    · rfl

theorem advanceSkip_ne_self (cur : Nat) : advanceSkip cur ≠ DEVICE_ID := by
  unfold advanceSkip
  split <;> omega

theorem sweep_matrix (os : List RxOutcome) :
    ∀ s cur, ((sweep s cur os).1).connectivity_matrix = s.connectivity_matrix := by
  induction os with
  | nil =>
    intro s cur
    simp only [sweep]
    split <;> rfl
  | cons o rest ih =>
    intro s cur
    simp only [sweep]
    split
    · rw [ih]
      exact initExchange_matrix s (advanceSkip cur) o
    · rfl

theorem sweep_list_self (os : List RxOutcome) :
    ∀ s cur, ((sweep s cur os).1).connectivity_list selfIdx =
      s.connectivity_list selfIdx := by
  induction os with
  | nil =>
    intro s cur
    simp only [sweep]
    split <;> rfl
  | cons o rest ih =>
    intro s cur
    simp only [sweep]
    split
    · rw [ih]
      exact initExchange_list_self s (advanceSkip cur) o (advanceSkip_ne_self cur)
    · rfl

theorem responderStep_list (g : MessagePayload) (s : NodeState) (e : RespEvent) :
    ((responderStep g s e).1).connectivity_list = s.connectivity_list := by
  cases e with
  | rxFail => rfl
  | rxGood fl resp prx tk =>
    simp only [responderStep]
    split
    · split
      · split <;> rfl
      · split <;> rfl
    · rfl

theorem responderStep_matrix_eq (g : MessagePayload) (s : NodeState) (fl : Nat)
    (resp : Message) (prx : Nat) (tk : Bool) :
    ((responderStep g s (RespEvent.rxGood fl resp prx tk)).1).connectivity_matrix =
      (if acceptFrame fl = true ∧ resp.header.dest = DEVICE_ID ∧
          resp.header.type = TYPE_ITITIATOR
       then resp.payload.connectivity_matrix else s.connectivity_matrix) := by
  simp only [responderStep]
  by_cases ha : acceptFrame fl = true
  · rw [if_pos ha]
    by_cases hr : resp.header.dest = DEVICE_ID ∧ resp.header.type = TYPE_RANGING
    · have hni : ¬ (acceptFrame fl = true ∧ resp.header.dest = DEVICE_ID ∧
          resp.header.type = TYPE_ITITIATOR) := by
        rintro ⟨-, -, h0⟩
        have h1 := hr.2
        rw [h0] at h1
        exact absurd h1 (by decide)
      rw [if_pos hr, if_neg hni]
      cases tk <;> rfl
    · rw [if_neg hr]
      by_cases hi : resp.header.dest = DEVICE_ID ∧ resp.header.type = TYPE_ITITIATOR
      · rw [if_pos hi, if_pos ⟨ha, hi.1, hi.2⟩]
        rfl
      · rw [if_neg hi, if_neg (fun hc => hi ⟨hc.2.1, hc.2.2⟩)]
  · rw [if_neg ha, if_neg (fun hc => ha hc.1)]

theorem responderStep_seq_eq (g : MessagePayload) (s : NodeState) (fl : Nat)
    (resp : Message) (prx : Nat) (tk : Bool) :
    ((responderStep g s (RespEvent.rxGood fl resp prx tk)).1).frame_seq_nb =
      (if acceptFrame fl = true ∧ resp.header.dest = DEVICE_ID ∧
          resp.header.type = TYPE_RANGING ∧ tk = true
       then (s.frame_seq_nb + 1) % 256 else s.frame_seq_nb) := by
  simp only [responderStep]
  by_cases ha : acceptFrame fl = true
  · rw [if_pos ha]
    by_cases hr : resp.header.dest = DEVICE_ID ∧ resp.header.type = TYPE_RANGING
    · rw [if_pos hr]
      by_cases ht : tk = true
      · rw [if_pos ht, if_pos ⟨ha, hr.1, hr.2, ht⟩]
        rfl
      · rw [if_neg ht, if_neg (fun hc => ht hc.2.2.2)]
    · rw [if_neg hr]
      have hns : ¬ (acceptFrame fl = true ∧ resp.header.dest = DEVICE_ID ∧
          resp.header.type = TYPE_RANGING ∧ tk = true) := by
        rintro ⟨-, hd, h1, -⟩
        exact hr ⟨hd, h1⟩
      rw [if_neg hns]
      by_cases hi : resp.header.dest = DEVICE_ID ∧ resp.header.type = TYPE_ITITIATOR
      · rw [if_pos hi]
        rfl
      · rw [if_neg hi]
  · rw [if_neg ha, if_neg (fun hc => ha hc.1)]

theorem applyOp_list_self (op : Op) (s : NodeState) :
    (applyOp op s).connectivity_list selfIdx = s.connectivity_list selfIdx := by
  cases op with
  | sweepRun os => exact sweep_list_self os s 0
  | commit => rfl
  | merge m => rfl
  | respond g e => exact congrFun (responderStep_list g s e) selfIdx

theorem runOps_list_self (ops : List Op) :
    ∀ s, (runOps ops s).connectivity_list selfIdx = s.connectivity_list selfIdx := by
  induction ops with
  | nil => intro s; rfl
  | cons op rest ih =>
    intro s
    show (runOps rest (applyOp op s)).connectivity_list selfIdx = _
    rw [ih (applyOp op s), applyOp_list_self]

/-! ## Claim theorems -/

/-- C1, counterexample: the claim says that after an RX timeout or error the
initiator skips the peer and advances to the next one; but at `cur_device = 0`
a failed exchange leaves `cur_device` at 0 (the code has no `cur_device++` in
the error path), so the very same peer is attempted again on the next loop
iteration. -/
theorem initiator_rx_fail_no_advance_cex :
    (initExchange startupState 0 RxOutcome.fail).2 = 0 ∧
      ¬ (initExchange startupState 0 RxOutcome.fail).2 = 0 + 1 :=
  ⟨rfl, by decide⟩

/-- C1, amended: on an RX timeout or error the initiator leaves the peer's
distance entry (and the whole state except the sequence counter) unchanged
and leaves `cur_device` unchanged, i.e. after the fixed inter-exchange delay
it RETRIES the same peer rather than skipping it; the sweep therefore is not
guaranteed to terminate under persistent loss. -/
theorem initiator_rx_fail_retries_same_peer (s : NodeState) (cur : Nat) :
    initExchange s cur RxOutcome.fail = (bumpSeq s, cur) ∧
      (bumpSeq s).connectivity_list = s.connectivity_list ∧
      (bumpSeq s).connectivity_matrix = s.connectivity_matrix :=
  ⟨rfl, rfl, rfl⟩

/-- C2: the transmitted poll frame's payload region does NOT begin with the
fixed 12-byte preamble: the static `poll_msg`/`resp_msg` template arrays are
never copied into the transmitted `tx.payload` (an uninitialised stack
object); only the sequence byte (offset 2) — and, for responses, the two
timestamps (offsets 10 and 14) — are written.  Evaluated at the failing
input where the uninitialised stack bytes happen to be all zero. -/
theorem tx_payload_preamble_uninitialised :
    (pollTxFrame zeroPayload 0 7).payload.poll_msg =
      [0, 0, 7, 0, 0, 0, 0, 0, 0, 0, 0, 0] ∧
    (pollTxFrame zeroPayload 0 7).payload.poll_msg ≠ poll_msg ∧
    (respTxFrame zeroPayload 0 7 0 0).payload.resp_msg ≠ resp_msg := by
  refine ⟨by decide, by decide, by decide⟩

/-- C3, counterexample: the claim says buffers shorter than the minimum
valid frame size (header plus smallest payload, so at least the 3 header
bytes) are rejected; but the only reception guard is
`frame_len <= sizeof(message)`, so a 0-length buffer — too short even for
the header — is accepted and interpreted. -/
theorem zero_length_frame_accepted_cex :
    acceptFrame 0 = true ∧ 0 < sizeofMessageHeader := by
  refine ⟨by decide, by decide⟩

/-- C3, amended: deserialization rejects exactly the buffers longer than
`sizeof(message)` (both roles then ignore the frame, leaving the state
unchanged except the initiator's sequence bump); there is no minimum-length
check, so any buffer of length at most `sizeof(message)` is interpreted. -/
theorem frame_length_guard_upper_only (g : MessagePayload) (s : NodeState)
    (resp : Message) (prx : Nat) (tk : Bool) (cur ptx rrx : Nat) (cor : Int)
    (len : Nat) :
    (acceptFrame len = true ↔ len ≤ sizeofMessage) ∧
    responderStep g s (RespEvent.rxGood (sizeofMessage + 1) resp prx tk) =
      (s, RespAction.discard) ∧
    initExchange s cur (RxOutcome.good (sizeofMessage + 1) resp ptx rrx cor) =
      (bumpSeq s, cur) := by
  refine ⟨decide_eq_true_iff, ?_, ?_⟩
  · simp only [responderStep]
    rw [if_neg (by decide : ¬ acceptFrame (sizeofMessage + 1) = true)]
  · simp only [initExchange]
    rw [if_neg (by decide : ¬ acceptFrame (sizeofMessage + 1) = true)]

/-- C4, counterexample: the claim says the sequence counter is incremented
after EVERY transmitted frame, role hand-off included; but the hand-off
transmission from a state with `frame_seq_nb = 5` leaves the counter at 5,
not (5+1) % 256. -/
theorem handoff_tx_no_seq_increment_cex :
    ((initiatorFinish zeroMessage { startupState with frame_seq_nb := 5 }).1).frame_seq_nb = 5 ∧
      ¬ ((initiatorFinish zeroMessage
          { startupState with frame_seq_nb := 5 }).1).frame_seq_nb = (5 + 1) % 256 :=
  ⟨rfl, by decide⟩

/-- C4, amended: `frame_seq_nb` is an 8-bit counter wrapping modulo 256,
incremented after every transmitted poll (in every outcome path) and after
every successfully transmitted response (not when `dwt_starttx` fails), but
NOT after the role hand-off transmission. -/
theorem seq_increment_per_transmitted_frame (s : NodeState) (cur : Nat)
    (o : RxOutcome) (tx : Message) (g : MessagePayload) (fl : Nat)
    (resp : Message) (prx : Nat) (tk : Bool) :
    ((initExchange s cur o).1).frame_seq_nb = (s.frame_seq_nb + 1) % 256 ∧
    ((initiatorFinish tx s).1).frame_seq_nb = s.frame_seq_nb ∧
    ((responderStep g s (RespEvent.rxGood fl resp prx tk)).1).frame_seq_nb =
      (if acceptFrame fl = true ∧ resp.header.dest = DEVICE_ID ∧
          resp.header.type = TYPE_RANGING ∧ tk = true
       then (s.frame_seq_nb + 1) % 256 else s.frame_seq_nb) ∧
    ((responderStep g s RespEvent.rxFail).1).frame_seq_nb = s.frame_seq_nb :=
  ⟨initExchange_seq s cur o, rfl, responderStep_seq_eq g s fl resp prx tk, rfl⟩

/-- C5: the ranging math of lines 249-269: `rtd_init` and `rtd_resp` are the
signed 32-bit reinterpretations of the wrapping unsigned 32-bit timestamp
differences (congruent to the true difference modulo 2^32 and lying in
[-2^31, 2^31)), `tof = ((rtd_init - rtd_resp·(1 - clockOffsetRatio)) / 2) ·
DWT_TIME_UNITS`, `distance = tof · SPEED_OF_LIGHT`, and with a clock-offset
ratio of 0, `distance = ((rtd_init - rtd_resp)/2) · DWT_TIME_UNITS ·
SPEED_OF_LIGHT`. -/
theorem distance_math_formulas (poll_tx_ts resp_rx_ts poll_rx_ts resp_tx_ts : Nat)
    (co : ℚ) :
    rtdInit resp_rx_ts poll_tx_ts % 4294967296 =
      ((resp_rx_ts : Int) - (poll_tx_ts : Int)) % 4294967296 ∧
    -2147483648 ≤ rtdInit resp_rx_ts poll_tx_ts ∧
    rtdInit resp_rx_ts poll_tx_ts < 2147483648 ∧
    rtdResp resp_tx_ts poll_rx_ts % 4294967296 =
      ((resp_tx_ts : Int) - (poll_rx_ts : Int)) % 4294967296 ∧
    -2147483648 ≤ rtdResp resp_tx_ts poll_rx_ts ∧
    rtdResp resp_tx_ts poll_rx_ts < 2147483648 ∧
    tofOf poll_tx_ts resp_rx_ts poll_rx_ts resp_tx_ts co =
      (((rtdInit resp_rx_ts poll_tx_ts : ℚ) -
        (rtdResp resp_tx_ts poll_rx_ts : ℚ) * (1 - co)) / 2) * DWT_TIME_UNITS ∧
    distanceOf poll_tx_ts resp_rx_ts poll_rx_ts resp_tx_ts co =
      tofOf poll_tx_ts resp_rx_ts poll_rx_ts resp_tx_ts co * SPEED_OF_LIGHT ∧
    distanceOf poll_tx_ts resp_rx_ts poll_rx_ts resp_tx_ts 0 =
      (((rtdInit resp_rx_ts poll_tx_ts : ℚ) - (rtdResp resp_tx_ts poll_rx_ts : ℚ)) / 2) *
        DWT_TIME_UNITS * SPEED_OF_LIGHT := by
  obtain ⟨h1, h2, h3⟩ := toInt32_spec ((resp_rx_ts : Int) - (poll_tx_ts : Int))
  obtain ⟨h4, h5, h6⟩ := toInt32_spec ((resp_tx_ts : Int) - (poll_rx_ts : Int))
  refine ⟨h1, h2, h3, h4, h5, h6, rfl, rfl, ?_⟩
  unfold distanceOf tofOf
  ring

/-- C6: after the sweep the initiator first commits its distance vector into
row `DEVICE_ID` via `update_matrix`, then builds and transmits a single
hand-off frame of type `TYPE_ITITIATOR` addressed to
`SET_INIT_DEV = (DEVICE_ID + 1) % NUM_DEVICES` carrying exactly the
just-committed matrix, and then control returns to the Responder role. -/
theorem handoff_commit_then_transmit (tx : Message) (s : NodeState)
    (os : List RxOutcome) :
    initiatorRun tx s os =
      ((initiatorFinish tx (sweep s 0 os).1).1,
        (initiatorFinish tx (sweep s 0 os).1).2, Role.responder) ∧
    (initiatorFinish tx s).1 = updateMatrixOp s ∧
    (initiatorFinish tx s).2.header.dest = SET_INIT_DEV ∧
    SET_INIT_DEV = (DEVICE_ID + 1) % NUM_DEVICES ∧
    (initiatorFinish tx s).2.header.type = TYPE_ITITIATOR ∧
    (initiatorFinish tx s).2.payload.connectivity_matrix =
      (updateMatrixOp s).connectivity_matrix :=
  ⟨rfl, rfl, rfl, rfl, rfl, rfl⟩

/-- C7: the hand-off merge wholesale-replaces the local matrix with the
received one, and merging the same matrix twice leaves the store exactly as
merging it once. -/
theorem merge_wholesale_and_idempotent (m : Mat) (s : NodeState) :
    (mergeMatrixOp m s).connectivity_matrix = m ∧
      mergeMatrixOp m (mergeMatrixOp m s) = mergeMatrixOp m s :=
  ⟨rfl, rfl⟩

/-- C8: `update_matrix` replaces row `DEVICE_ID` of the matrix with the
current distance vector and leaves every other row unchanged; and no other
operation writes the matrix: an initiator exchange and the whole sweep leave
it untouched, and a responder step changes it exactly when the frame is an
accepted hand-off addressed to this node (the merge). -/
theorem commit_row_writes_only_self_row (g : MessagePayload) (s : NodeState)
    (i : Fin NUM_DEVICES) :
    (updateMatrixOp s).connectivity_matrix i =
      (if (i : Nat) = DEVICE_ID then s.connectivity_list
       else s.connectivity_matrix i) ∧
    (∀ cur o, ((initExchange s cur o).1).connectivity_matrix = s.connectivity_matrix) ∧
    (∀ cur os, ((sweep s cur os).1).connectivity_matrix = s.connectivity_matrix) ∧
    (∀ fl resp prx tk,
      ((responderStep g s (RespEvent.rxGood fl resp prx tk)).1).connectivity_matrix =
        (if acceptFrame fl = true ∧ resp.header.dest = DEVICE_ID ∧
            resp.header.type = TYPE_ITITIATOR
         then resp.payload.connectivity_matrix else s.connectivity_matrix)) ∧
    (responderStep g s RespEvent.rxFail).1 = s :=
  ⟨rfl, fun cur o => initExchange_matrix s cur o,
    fun cur os => sweep_matrix os s cur,
    fun fl resp prx tk => responderStep_matrix_eq g s fl resp prx tk, rfl⟩

/-- C9: a received frame that is not addressed to this node, or whose type is
neither `TYPE_RANGING` (RangingPoll) nor `TYPE_ITITIATOR` (RoleHandoff), is
discarded by the responder with no state change at all, and the loop keeps
listening. -/
theorem responder_discards_foreign_frames (g : MessagePayload) (s : NodeState)
    (fl : Nat) (resp : Message) (prx : Nat) (tk : Bool)
    (h : resp.header.dest ≠ DEVICE_ID ∨
      (resp.header.type ≠ TYPE_RANGING ∧ resp.header.type ≠ TYPE_ITITIATOR)) :
    responderStep g s (RespEvent.rxGood fl resp prx tk) = (s, RespAction.discard) := by
  have hr : ¬ (resp.header.dest = DEVICE_ID ∧ resp.header.type = TYPE_RANGING) := by
    rintro ⟨hd, ht⟩
    rcases h with h | h
    · exact h hd
    · exact h.1 ht
  have hi : ¬ (resp.header.dest = DEVICE_ID ∧ resp.header.type = TYPE_ITITIATOR) := by
    rintro ⟨hd, ht⟩
    rcases h with h | h
    · exact h hd
    · exact h.2 ht
  simp only [responderStep]
  by_cases ha : acceptFrame fl = true
  · rw [if_pos ha, if_neg hr, if_neg hi]
  · rw [if_neg ha]

/-- C9 witness: a concrete `TYPE_RESPONSE` frame addressed to this node is
discarded without state change. -/
theorem responder_discards_foreign_frames_witness :
    (respSample.header.type ≠ TYPE_RANGING ∧ respSample.header.type ≠ TYPE_ITITIATOR) ∧
      responderStep zeroPayload startupState
        (RespEvent.rxGood 3 respSample 0 true) = (startupState, RespAction.discard) :=
  ⟨⟨by decide, by decide⟩,
    responder_discards_foreign_frames zeroPayload startupState 3 respSample 0 true
      (Or.inr ⟨by decide, by decide⟩)⟩

/-- C10: starting from the zero-initialised statics, no reachable operation
ever writes the distance-vector slot at the node's own id (the sweep only
records distances at peers it does not skip, and it skips self), so that slot
stays 0 forever, and every `update_matrix` commit consequently writes 0 into
the diagonal cell (DEVICE_ID, DEVICE_ID) of the matrix. -/
theorem self_distance_slot_stays_zero (ops : List Op) :
    (runOps ops startupState).connectivity_list selfIdx = 0 ∧
      (updateMatrixOp (runOps ops startupState)).connectivity_matrix selfIdx selfIdx = 0 := by
  have h1 : (runOps ops startupState).connectivity_list selfIdx = 0 :=
    runOps_list_self ops startupState
  refine ⟨h1, ?_⟩
  have hsel : ((selfIdx : Fin NUM_DEVICES) : Nat) = DEVICE_ID := rfl
  simp only [updateMatrixOp]
  rw [if_pos hsel]
  exact h1

end DistMatrix
